import Mathlib

/-!
Verification of the turn-orchestration pipeline of
`src/content/Open-LLM-VTuber/single_conversation.py`.

The Python source is shallowly embedded: the reply-normalization logic of
`process_single_conversation` (lines 97-127) becomes pure Lean functions over a
model of HTTP responses and JSON values, and the orchestration (lines 57-191)
becomes a deterministic interpreter producing a result and a trace of
observable events, parametrized by the behaviour of the external
collaborators.
-/

namespace SingleConversation

/-- Model of a parsed JSON value, as returned by Python's `resp.json()`.
Numbers are modelled as integers (no claim depends on fractional values). -/
inductive Json where
  | null
  | bool (b : Bool)
  | num (n : Int)
  | str (s : String)
  | arr (xs : List Json)
  | obj (fields : List (String × Json))
deriving Repr

/-- Python truthiness of a JSON-decoded value (`bool(v)`). -/
def pyTruthy : Json → Bool
  | .null => false
  | .bool b => b
  | .num n => n ≠ 0
  | .str s => s ≠ ""
  | .arr xs => !xs.isEmpty
  | .obj fs => !fs.isEmpty

/-- Whether the Python value is a `str` (`isinstance(v, str)`). -/
def Json.isStr : Json → Bool
  | .str _ => true
  | _ => false

/-- `l.dropWhile Char.isWhitespace`: strip leading whitespace, the left half
of Python's `str.strip()`. -/
def stripLeft (l : List Char) : List Char :=
  l.dropWhile Char.isWhitespace

/-- Strip trailing whitespace, the right half of Python's `str.strip()`. -/
def stripRight (l : List Char) : List Char :=
  (l.reverse.dropWhile Char.isWhitespace).reverse

/-- Python's `s.strip()`: remove leading and trailing whitespace. -/
def pyStrip (s : String) : String :=
  String.mk (stripRight (stripLeft s.data))

theorem dropWhile_idem (p : Char → Bool) (l : List Char) :
    (l.dropWhile p).dropWhile p = l.dropWhile p := by
  induction l with
  | nil => rfl
  | cons a t ih =>
    by_cases h : p a
    · simp [List.dropWhile_cons, h, ih]
    · simp [List.dropWhile_cons, h]

theorem stripLeft_stripRight_of_stripped (l : List Char)
    (h : stripLeft l = l) : stripLeft (stripRight l) = stripRight l := by
  have hsuf : (l.reverse.dropWhile Char.isWhitespace) <:+ l.reverse :=
    List.dropWhile_suffix _
  obtain ⟨pre, hpre⟩ := hsuf
  have hl : l = stripRight l ++ pre.reverse := by
    have := congrArg List.reverse hpre
    simpa [stripRight] using this.symm
  cases hsr : stripRight l with
  | nil => simp [stripLeft, hsr]
  | cons a t =>
    have hl' : l = a :: (t ++ pre.reverse) := by
      rw [hl, hsr]; rfl
    by_cases hwa : Char.isWhitespace a
    · exfalso
      have hlen : (stripLeft l).length < l.length := by
        rw [hl']
        simp only [stripLeft, List.dropWhile_cons, hwa, if_pos]
        have := ((List.dropWhile_suffix (l := t ++ pre.reverse)
          Char.isWhitespace).sublist).length_le
        simp only [List.length_cons]
        omega
      rw [h] at hlen
      omega
    · simp [stripLeft, hsr, List.dropWhile_cons, hwa]

theorem stripRight_idem (l : List Char) :
    stripRight (stripRight l) = stripRight l := by
  simp [stripRight, List.reverse_reverse, dropWhile_idem]

theorem stripLeft_idem (l : List Char) :
    stripLeft (stripLeft l) = stripLeft l := by
  simp [stripLeft, dropWhile_idem]

/-- `strip` is idempotent. -/
theorem pyStrip_idem (s : String) : pyStrip (pyStrip s) = pyStrip s := by
  show String.mk _ = String.mk _
  have h1 : stripLeft (stripLeft s.data) = stripLeft s.data :=
    stripLeft_idem s.data
  have h2 : stripLeft (stripRight (stripLeft s.data))
      = stripRight (stripLeft s.data) :=
    stripLeft_stripRight_of_stripped _ h1
  simp [pyStrip, h2, stripRight_idem]

/-! ## The reply normalizer (source lines 97-127)

`_post_to_n8n` either returns a `requests.Response` (any status code, any
body) or raises; the `except Exception` at line 117 absorbs the raise.  A
response body is modelled by the text `resp.text` returns together with the
optional JSON value `resp.json()` parses (none when `resp.json()` raises). -/

/-- The fallback sentinel substituted for an empty/whitespace reply
(source line 123). -/
def fallbackSentinel : String := "Maaf, saya tidak dapat menjawab sekarang."

/-- Minimal model of the escaping `json.dumps` applies inside string
literals; no claim depends on the exact rendering, only on both sides of a
comparison using the same serializer. -/
def escapeChar (c : Char) : String :=
  if c = '"' then "\\\""
  else if c = '\\' then "\\\\"
  else if c = '\n' then "\\n"
  else if c = '\r' then "\\r"
  else if c = '\t' then "\\t"
  else String.mk [c]

/-- Escape a string body for `json.dumps`. -/
def escapeStr (s : String) : String :=
  String.join (s.data.map escapeChar)

mutual

/-- Model of Python's `json.dumps` with its default separators. -/
def Json.dumps : Json → String
  | .null => "null"
  | .bool true => "true"
  | .bool false => "false"
  | .num n => toString n
  | .str s => "\"" ++ escapeStr s ++ "\""
  | .arr xs => "[" ++ dumpsElems xs ++ "]"
  | .obj fs => "\x7b" ++ dumpsFields fs ++ "\x7d"

/-- `json.dumps` of the comma-separated elements of an array. -/
def dumpsElems : List Json → String
  | [] => ""
  | [x] => Json.dumps x
  | x :: y :: xs => Json.dumps x ++ ", " ++ dumpsElems (y :: xs)

/-- `json.dumps` of the comma-separated fields of an object. -/
def dumpsFields : List (String × Json) → String
  | [] => ""
  | [(k, v)] => "\"" ++ escapeStr k ++ "\": " ++ Json.dumps v
  | (k, v) :: f :: fs =>
      "\"" ++ escapeStr k ++ "\": " ++ Json.dumps v ++ ", " ++ dumpsFields (f :: fs)

end

/-- One HTTP response body: `resp.text`, and the value `resp.json()`
parses it to (`none` when parsing raises and line 112's fallback fires). -/
structure HttpBody where
  text : String
  json : Option Json

/-- Outcome of the `await _post_to_n8n(...)` exchange at line 99, short of
cancellation: either a `requests.Response` or an exception absorbed by the
`except Exception` handler at line 117. -/
inductive FetchResult where
  | response (status : Nat) (body : HttpBody)
  | exn (msg : String)

/-- The Python value bound to `reply_text` by source lines 100-119.  It is
a `Json` value rather than a string because `data.get("reply", "")` hands
back the `reply` field verbatim, whatever its type; every other branch
produces a string. -/
def replyText : FetchResult → Json
  | .exn e => .str ("[Gagal konek ke n8n: " ++ e ++ "]")
  | .response status body =>
    if status = 200 then
      match body.json with
      | some data =>
        match data with
        | .obj fs =>
          match fs.lookup "reply" with
          | some v => v
          | none => .str (Json.dumps (.obj fs))
        | .str s => .str s
        | other => .str (Json.dumps other)
      | none => .str body.text
    else
      .str ("[n8n error " ++ toString status ++ "]")

/-- `s.strip() or fallbackSentinel`: the string part of line 123. -/
def stripOrSentinel (s : String) : String :=
  if pyStrip s = "" then fallbackSentinel else pyStrip s

/-- Line 123, `(reply_text or "").strip() or "Maaf, ..."`, on the Python
value of `reply_text`: a falsy value is replaced by `""` whose strip is
empty, so the sentinel results; a truthy `str` is stripped (sentinel if
blank); a truthy non-`str` has no `.strip` attribute and the line raises
`AttributeError`. -/
def cleanReplyVal : Json → Except String String
  | v =>
    if pyTruthy v then
      match v with
      | .str s => .ok (stripOrSentinel s)
      | _ => .error "AttributeError: strip"
    else .ok fallbackSentinel

/-- The whole reply normalization, source lines 100-123: fetch outcome to
`clean_reply`, or the exception line 123 raises. -/
def normalizeReply (r : FetchResult) : Except String String :=
  cleanReplyVal (replyText r)

/-- The fetch outcomes on which line 123 raises: a 200 response whose body
parses to a JSON object whose `reply` binding is a truthy non-string. -/
def isBadReply : FetchResult → Bool
  | .response status body =>
    if status = 200 then
      match body.json with
      | some (.obj fs) =>
        match fs.lookup "reply" with
        | some v => pyTruthy v && !v.isStr
        | none => false
      | _ => false
    else false
  | .exn _ => false

/-! ## The turn orchestrator (source lines 41-191)

`process_single_conversation` is embedded as a deterministic interpreter
from an environment — the behaviour of every external collaborator during
this turn — to a run result plus a trace of the observable events, in the
order the source emits them. -/

/-- UI events pushed through `websocket_send`. -/
inductive WsMsg where
  | startSignal
  | text (s : String)
  | synthComplete
  | errorMsg (m : String)

/-- Observable events of one turn, in emission order.  A `send` records an
attempted `websocket_send` together with whether the transport succeeded
(`ok = false` means the send raised). -/
inductive Event where
  | send (msg : WsMsg) (ok : Bool)
  | historyWrite (role : String) (content : String)
  | taskSettled
  | finalizeCall
  | cleanupCall

/-- Modelled from the spec: `process_user_input` (INPUT_READY, spec 4.4)
resolves the raw input to text; its failures are fatal and propagate
unchanged; it can also be cancelled at its await points. -/
inductive AsrOutcome where
  | ok (text : String)
  | err (msg : String)
  | cancelled

/-- Outcome of the awaited fetch: a `FetchResult` (response or absorbed
exception), or `asyncio.CancelledError` at the await, which the
`except Exception` at line 117 does not catch. -/
inductive FetchOutcome where
  | done (r : FetchResult)
  | cancelled

/-- Modelled from the spec: the Output Renderer `process_agent_output`
(spec 4.4 RENDER_DISPATCHED, 6) either raises or returns an optional
partial response; in both cases it has appended `tasks` background TTS
handles to the shared `tts_manager.task_list` before control returns. -/
structure RendererBehavior where
  raises : Bool
  result : Option String
  tasks : Nat

/-- The behaviour of every collaborator during one turn.  The four `Ok`
flags say whether the corresponding `websocket_send` succeeds; collaborators
whose code is outside `src/` (start signals, history sink, finalize,
cleanup, TTS manager) are modelled from the spec as opaque event emitters. -/
structure Env where
  asr : AsrOutcome
  fetch : FetchOutcome
  renderer : RendererBehavior
  historyUid : Bool
  metadata : Option (List (String × Json))
  startSendOk : Bool
  fallbackSendOk : Bool
  synthSendOk : Bool
  errorSendOk : Bool

/-- Line 79: `skip_history = metadata and metadata.get("skip_history", False)`,
taken as a truth value.  A missing or empty (falsy) dict yields false. -/
def skipHistory : Option (List (String × Json)) → Bool
  | none => false
  | some fs =>
    if fs.isEmpty then false
    else pyTruthy ((fs.lookup "skip_history").getD (.bool false))

/-- Result of one call to `process_single_conversation`: the returned
`full_response`, the re-raised `asyncio.CancelledError`, or a re-raised
unhandled exception. -/
inductive RunResult where
  | ok (s : String)
  | cancelled
  | error (e : String)

/-- Whether the call returned normally. -/
def RunResult.isOk : RunResult → Bool
  | .ok _ => true
  | _ => false

/-- Step 8 (lines 151-157): when `tts_manager.task_list` is non-empty,
`asyncio.gather(..., return_exceptions=True)` settles every registered task
without propagating individual failures, then a best-effort
`backend-synth-complete` send follows; an empty task list skips the whole
block. -/
def barrierTrace (tasks : Nat) (synthOk : Bool) : List Event :=
  if tasks = 0 then []
  else List.replicate tasks .taskSettled ++ [.send .synthComplete synthOk]

/-- Steps 7-10 and the return (lines 129-178), given `clean_reply`:
renderer dispatch with its raw-text fallback, the TTS barrier, the
finalize call, and the conditional "ai" history write. -/
def afterNormalize (env : Env) (cleanReply : String) : RunResult × List Event :=
  let rendered :=
    if env.renderer.raises then
      (cleanReply, [Event.send (.text cleanReply) env.fallbackSendOk])
    else
      (env.renderer.result.getD "", ([] : List Event))
  let fullResponse := rendered.1
  let tr := rendered.2 ++ barrierTrace env.renderer.tasks env.synthSendOk
      ++ [Event.finalizeCall]
      ++ (if env.historyUid && fullResponse ≠ "" then
            [Event.historyWrite "ai" fullResponse] else [])
  (.ok fullResponse, tr)

/-- The whole turn, lines 57-191.  The `finally` block runs
`cleanup_conversation` on every exit path; `except asyncio.CancelledError`
re-raises unchanged; `except Exception` attempts a best-effort error event
then re-raises.  The start signal is modelled from the spec (SIGNAL_SENT)
as best-effort. -/
def runTurn (env : Env) : RunResult × List Event :=
  let startTr := [Event.send .startSignal env.startSendOk]
  match env.asr with
  | .cancelled => (.cancelled, startTr ++ [.cleanupCall])
  | .err e =>
      (.error e,
        startTr ++ [.send (.errorMsg ("Conversation error: " ++ e)) env.errorSendOk,
          .cleanupCall])
  | .ok inputText =>
    let histTr :=
      if env.historyUid && !skipHistory env.metadata then
        [Event.historyWrite "human" inputText]
      else []
    match env.fetch with
    | .cancelled => (.cancelled, startTr ++ histTr ++ [.cleanupCall])
    | .done r =>
      match normalizeReply r with
      | .error e =>
          (.error e,
            startTr ++ histTr
              ++ [.send (.errorMsg ("Conversation error: " ++ e)) env.errorSendOk,
                .cleanupCall])
      | .ok cleanR =>
          let out := afterNormalize env cleanR
          (out.1, startTr ++ histTr ++ out.2 ++ [.cleanupCall])

/-! ## Event classifiers and trace checkers -/

/-- Recognize the finalize call. -/
def isFinalize : Event → Bool
  | .finalizeCall => true
  | _ => false

/-- Recognize a settled background TTS task. -/
def isSettle : Event → Bool
  | .taskSettled => true
  | _ => false

/-- Recognize an attempted `backend-synth-complete` send. -/
def isSynthSend : Event → Bool
  | .send .synthComplete _ => true
  | _ => false

/-- Recognize an attempted error-event send. -/
def isErrorSend : Event → Bool
  | .send (.errorMsg _) _ => true
  | _ => false

/-- Recognize a history write with role `human`. -/
def isHumanWrite : Event → Bool
  | .historyWrite role _ => role == "human"
  | _ => false

/-- Recognize a history write with role `ai`. -/
def isAiWrite : Event → Bool
  | .historyWrite role _ => role == "ai"
  | _ => false

/-- Recognize the cleanup call. -/
def isCleanup : Event → Bool
  | .cleanupCall => true
  | _ => false

/-- Whether the trace ends with the cleanup call. -/
def endsWithCleanup : List Event → Bool
  | [] => false
  | [e] => isCleanup e
  | _ :: rest => endsWithCleanup rest

/-- `true` iff an attempted `\x7btype:"text"\x7d` send occurs strictly
before any finalize call. -/
def textSendBeforeFinalize : List Event → Bool
  | [] => false
  | .send (.text _) _ :: _ => true
  | .finalizeCall :: _ => false
  | _ :: rest => textSendBeforeFinalize rest

/-- Order audit for the barrier and finalize (claim C3): scanning the
trace, a task may settle only before the synth-complete send and before
finalize; the synth-complete send may occur only once all `n` registered
tasks have settled and only before finalize; finalize occurs at most
once. -/
def c3go (n : Nat) : List Event → Nat → Bool → Bool → Bool
  | [], _, _, _ => true
  | e :: rest, settled, synSeen, finSeen =>
    match e with
    | .taskSettled =>
        !synSeen && !finSeen && c3go n rest (settled + 1) synSeen finSeen
    | .send .synthComplete _ =>
        !finSeen && settled == n && c3go n rest settled true finSeen
    | .finalizeCall => !finSeen && c3go n rest settled synSeen true
    | _ => c3go n rest settled synSeen finSeen

/-- Entry point of the C3 order audit. -/
def c3check (n : Nat) (tr : List Event) : Bool :=
  c3go n tr 0 false false

/-- Whether a run result is a normal return with non-empty text. -/
def okNonempty : RunResult → Bool
  | .ok s => s ≠ ""
  | _ => false

/-- Whether an `Except` outcome is a success. -/
def exceptOk : Except String String → Bool
  | .ok _ => true
  | .error _ => false

/-! ## Helper lemmas -/

theorem pyStrip_fallbackSentinel : pyStrip fallbackSentinel = fallbackSentinel := by
  decide

theorem fallbackSentinel_ne_empty : fallbackSentinel ≠ "" := by decide

theorem stripOrSentinel_nonempty (s : String) : stripOrSentinel s ≠ "" := by
  unfold stripOrSentinel
  by_cases h : pyStrip s = ""
  · simp [h, fallbackSentinel_ne_empty]
  · simp [h]

theorem stripOrSentinel_stripped (s : String) :
    pyStrip (stripOrSentinel s) = stripOrSentinel s := by
  unfold stripOrSentinel
  by_cases h : pyStrip s = ""
  · simp [h, pyStrip_fallbackSentinel]
  · simp [h, pyStrip_idem]

theorem stripOrSentinel_idem (s : String) :
    stripOrSentinel (stripOrSentinel s) = stripOrSentinel s := by
  by_cases h : pyStrip s = ""
  · have h1 : stripOrSentinel s = fallbackSentinel := by
      simp [stripOrSentinel, h]
    rw [h1]
    simp [stripOrSentinel, pyStrip_fallbackSentinel, fallbackSentinel_ne_empty]
  · have h1 : stripOrSentinel s = pyStrip s := by
      simp [stripOrSentinel, h]
    rw [h1]
    simp [stripOrSentinel, pyStrip_idem, h]

/-- Every string the cleaning line (123) returns is non-empty and fixed by
`strip`. -/
theorem cleanReplyVal_ok_props (v : Json) (r : String)
    (h : cleanReplyVal v = .ok r) : r ≠ "" ∧ pyStrip r = r := by
  have hsent : fallbackSentinel ≠ "" ∧ pyStrip fallbackSentinel = fallbackSentinel :=
    ⟨fallbackSentinel_ne_empty, pyStrip_fallbackSentinel⟩
  cases v with
  | str s =>
    by_cases hs : s = ""
    · simp [cleanReplyVal, pyTruthy, hs] at h
      subst h; exact hsent
    · simp [cleanReplyVal, pyTruthy, hs] at h
      subst h
      exact ⟨stripOrSentinel_nonempty s, stripOrSentinel_stripped s⟩
  | null =>
    simp [cleanReplyVal, pyTruthy] at h
    subst h; exact hsent
  | bool b =>
    cases b <;> simp [cleanReplyVal, pyTruthy] at h
    subst h; exact hsent
  | num n =>
    by_cases hn : n = 0
    · simp [cleanReplyVal, pyTruthy, hn] at h
      subst h; exact hsent
    · simp [cleanReplyVal, pyTruthy, hn] at h
  | arr xs =>
    cases xs with
    | nil =>
      simp [cleanReplyVal, pyTruthy] at h
      subst h; exact hsent
    | cons a t => simp [cleanReplyVal, pyTruthy] at h
  | obj fs =>
    cases fs with
    | nil =>
      simp [cleanReplyVal, pyTruthy] at h
      subst h; exact hsent
    | cons a t => simp [cleanReplyVal, pyTruthy] at h

/-- Cleaning a genuine string value never raises. -/
theorem cleanReplyVal_str_isOk (s : String) :
    exceptOk (cleanReplyVal (.str s)) = true := by
  by_cases hs : s = "" <;> simp [cleanReplyVal, pyTruthy, hs, exceptOk]

theorem c3go_replicate (N k s : Nat) (rest : List Event) :
    c3go N (List.replicate k .taskSettled ++ rest) s false false
      = c3go N rest (s + k) false false := by
  induction k generalizing s with
  | zero => simp
  | succ k ih =>
    rw [List.replicate_succ, List.cons_append]
    show c3go N (Event.taskSettled :: (List.replicate k .taskSettled ++ rest))
        s false false = _
    rw [show s + (k + 1) = (s + 1) + k by omega]
    simp [c3go, ih (s + 1)]

theorem countP_replicate_eq {α : Type} (p : α → Bool) (n : Nat) (a : α) :
    List.countP p (List.replicate n a) = if p a then n else 0 := by
  induction n with
  | zero => simp
  | succ n ih =>
    rw [List.replicate_succ]
    by_cases h : p a <;> simp [List.countP_cons, h, ih]

theorem endsWithCleanup_append (l : List Event) :
    endsWithCleanup (l ++ [Event.cleanupCall]) = true := by
  induction l with
  | nil => rfl
  | cons a t ih =>
    cases t with
    | nil => simpa [endsWithCleanup] using ih
    | cons b u => simpa [endsWithCleanup] using ih

/-! ## Default-argument semantics of `session_emoji` (source line 47)

In Python, a default value in a `def` header is evaluated once, when the
`def` statement executes at module import; `np.random.choice(EMOJI_LIST)`
at line 47 therefore draws one emoji at import time and every call that
omits `session_emoji` sees that same value.  The module-load step and the
per-call argument resolution are embedded explicitly; `EMOJI_LIST`
(imported from `conversation_utils`, outside `src/`) stays abstract. -/

/-- Model of `np.random.choice(xs)` driven by an explicit random seed. -/
def npRandomChoice (seed : Nat) (xs : List String) : String :=
  xs.getD (seed % xs.length) ""

/-- The module-level state fixed when the `def` statement executes. -/
structure ModuleState where
  defaultSessionEmoji : String

/-- Importing the module evaluates the default argument expression once. -/
def loadModule (emojiList : List String) (defSeed : Nat) : ModuleState :=
  ⟨npRandomChoice defSeed emojiList⟩

/-- The `session_emoji` a call observes: the explicit argument when one is
passed, else the module-level default.  `callSeed` is the randomness that a
per-call draw would have consumed; the default-argument semantics never
touches it. -/
def sessionEmojiOf (m : ModuleState) (arg : Option String) (callSeed : Nat) :
    String :=
  match arg, callSeed with
  | some s, _ => s
  | none, _ => m.defaultSessionEmoji

/-- Whether the Python value is a `dict` (`isinstance(v, dict)`). -/
def Json.isObj : Json → Bool
  | .obj _ => true
  | _ => false

/-- Line 123 succeeds exactly when `reply_text` is a string or falsy. -/
theorem cleanReplyVal_isOk_eq (v : Json) :
    exceptOk (cleanReplyVal v) = !(pyTruthy v && !v.isStr) := by
  cases v with
  | str s =>
    by_cases hs : s = "" <;>
      simp [cleanReplyVal, pyTruthy, Json.isStr, exceptOk, hs]
  | null => simp [cleanReplyVal, pyTruthy, Json.isStr, exceptOk]
  | bool b => cases b <;> simp [cleanReplyVal, pyTruthy, Json.isStr, exceptOk]
  | num n =>
    by_cases hn : n = 0 <;>
      simp [cleanReplyVal, pyTruthy, Json.isStr, exceptOk, hn]
  | arr xs => cases xs <;> simp [cleanReplyVal, pyTruthy, Json.isStr, exceptOk]
  | obj fs => cases fs <;> simp [cleanReplyVal, pyTruthy, Json.isStr, exceptOk]

/-! ## Claims -/

/-- Claim C1, counterexample: a 200 response whose JSON `reply` field holds
the non-string `42` makes the normalization step raise `AttributeError`
(line 123 calls `.strip()` on an `int`), and the whole turn then fails with
that unhandled error — contradicting "the REPLY_FETCHED step never raises
and never fails the turn ... for every possible response body, including a
200 response whose JSON 'reply' field holds a non-string value". -/
theorem C1_counterexample :
    normalizeReply (FetchResult.response 200
        ⟨"\x7b\"reply\": 42\x7d", some (.obj [("reply", Json.num 42)])⟩)
      = .error "AttributeError: strip" ∧
    (runTurn
        ⟨.ok "hello",
          .done (FetchResult.response 200
            ⟨"\x7b\"reply\": 42\x7d", some (.obj [("reply", Json.num 42)])⟩),
          ⟨false, some "part", 0⟩, true, none, true, true, true, true⟩).1
      = RunResult.error "AttributeError: strip" :=
  ⟨rfl, rfl⟩

/-- Claim C1 (amended): for every fetch outcome — any exception, any status,
any body — the reply-normalization step succeeds and control reaches output
construction, EXCEPT when a 200 response's JSON body is an object whose
`reply` field holds a truthy non-string value, in which case the step
raises and the turn fails. -/
theorem C1_fetch_absorbs_failures (r : FetchResult) :
    exceptOk (normalizeReply r) = !isBadReply r := by
  cases r with
  | exn e => simp [normalizeReply, replyText, isBadReply, cleanReplyVal_str_isOk]
  | response st body =>
    rcases body with ⟨txt, js⟩
    by_cases hst : st = 200
    · subst hst
      cases js with
      | none =>
        simp [normalizeReply, replyText, isBadReply, cleanReplyVal_str_isOk]
      | some data =>
        cases data with
        | obj fs =>
          cases hk : fs.lookup "reply" with
          | some v =>
            simp [normalizeReply, replyText, isBadReply, hk,
              cleanReplyVal_isOk_eq]
          | none =>
            simp [normalizeReply, replyText, isBadReply, hk,
              cleanReplyVal_str_isOk]
        | str s =>
          simp [normalizeReply, replyText, isBadReply, cleanReplyVal_str_isOk]
        | null =>
          simp [normalizeReply, replyText, isBadReply, cleanReplyVal_str_isOk]
        | bool b =>
          simp [normalizeReply, replyText, isBadReply, cleanReplyVal_str_isOk]
        | num n =>
          simp [normalizeReply, replyText, isBadReply, cleanReplyVal_str_isOk]
        | arr xs =>
          simp [normalizeReply, replyText, isBadReply, cleanReplyVal_str_isOk]
    · simp [normalizeReply, replyText, isBadReply, hst, cleanReplyVal_str_isOk]

/-- Claim C2, counterexample: the code branches on `status_code == 200`,
not on 2xx.  A 201 response whose JSON body contains `reply: "hi"` is
claimed (rule 2) to normalize to `"hi"` verbatim, but the code produces the
bracketed error string instead. -/
theorem C2_counterexample :
    replyText (FetchResult.response 201
        ⟨"\x7b\"reply\": \"hi\"\x7d", some (.obj [("reply", Json.str "hi")])⟩)
      = .str "[n8n error 201]" ∧ "[n8n error 201]" ≠ "hi" :=
  ⟨rfl, by decide⟩

/-- Claim C2 (amended): the priority rules hold with "2xx" replaced by
"exactly 200" and with a 200 body parsing to a top-level JSON string
yielding that string itself rather than its serialization: (1) an exception
or a non-200 status yields the bracketed error string; (2) a 200 JSON
object containing `reply` yields that field's value verbatim; (3) a 200
JSON object without `reply`, or any non-string non-object JSON value,
yields the `json.dumps` serialization; a JSON string yields itself; (4) a
200 body that does not parse as JSON yields the raw body text. -/
theorem C2_amended_rules (e txt₁ txt₂ txt₃ txt₄ txt₅ s : String)
    (st : Nat) (b : HttpBody) (fs₁ fs₂ : List (String × Json)) (v j : Json)
    (hst : st ≠ 200) (hv : fs₁.lookup "reply" = some v)
    (hn : fs₂.lookup "reply" = none)
    (hj1 : j.isStr = false) (hj2 : j.isObj = false) :
    replyText (.exn e) = .str ("[Gagal konek ke n8n: " ++ e ++ "]") ∧
    replyText (.response st b) = .str ("[n8n error " ++ toString st ++ "]") ∧
    replyText (.response 200 ⟨txt₁, some (.obj fs₁)⟩) = v ∧
    replyText (.response 200 ⟨txt₂, some (.obj fs₂)⟩)
      = .str (Json.dumps (.obj fs₂)) ∧
    replyText (.response 200 ⟨txt₃, some (.str s)⟩) = .str s ∧
    replyText (.response 200 ⟨txt₄, some j⟩) = .str (Json.dumps j) ∧
    replyText (.response 200 ⟨txt₅, none⟩) = .str txt₅ := by
  refine ⟨rfl, by simp [replyText, hst], by simp [replyText, hv],
    by simp [replyText, hn], rfl, ?_, rfl⟩
  cases j with
  | str s => simp [Json.isStr] at hj1
  | obj fs => simp [Json.isObj] at hj2
  | null => rfl
  | bool b => rfl
  | num n => rfl
  | arr xs => rfl

/-- Claim C2, witness for the amended rules at concrete inputs. -/
theorem C2_amended_rules_witness :
    replyText (.response 201 ⟨"t", some (.obj [("reply", Json.str "hi")])⟩)
      = .str "[n8n error 201]" ∧
    replyText (.response 200 ⟨"t", some (.obj [("reply", Json.str "hi")])⟩)
      = .str "hi" ∧
    replyText (.response 200 ⟨"t", some (.num 5)⟩) = .str "5" := by
  have h := C2_amended_rules "x" "t" "t" "t" "t" "t" "p" 201 ⟨"t", none⟩
    [("reply", Json.str "hi")] [] (Json.str "hi") (Json.num 5)
    (by decide) (by rfl) (by rfl) (by rfl) (by rfl)
  exact ⟨by rfl, h.2.2.1, by simpa [Json.dumps] using h.2.2.2.2.2.1⟩

/-- Claim C6 (confirmed): an empty or all-whitespace normalized reply is
replaced by the fallback sentinel, and every display string line 123 hands
to output construction is non-empty and fixed under stripping. -/
theorem C6_display_text_contract (w : Json) (s r : String)
    (h1 : pyStrip s = "") (h2 : cleanReplyVal w = .ok r) :
    cleanReplyVal (.str s) = .ok fallbackSentinel ∧ r ≠ "" ∧ pyStrip r = r := by
  refine ⟨?_, (cleanReplyVal_ok_props w r h2).1, (cleanReplyVal_ok_props w r h2).2⟩
  by_cases hs : s = ""
  · simp [cleanReplyVal, pyTruthy, hs]
  · simp [cleanReplyVal, pyTruthy, hs, stripOrSentinel, h1]

/-- Claim C6, witness at the all-whitespace input `" "` and the plain
input `"x"`. -/
theorem C6_witness :
    pyStrip " " = "" ∧ cleanReplyVal (.str "x") = .ok "x" ∧
    (cleanReplyVal (.str " ") = .ok fallbackSentinel ∧
      "x" ≠ "" ∧ pyStrip "x" = "x") :=
  ⟨by decide, by rfl,
    C6_display_text_contract (.str "x") " " "x" (by decide) (by rfl)⟩

/-- Claim C8 (confirmed): the `session_emoji` default is evaluated once, at
function-definition time; two calls in the same program run that omit the
argument observe the identical module-level value — the definition-time
draw — independent of any per-call randomness. -/
theorem C8_default_emoji_evaluated_once (emojiList : List String)
    (defSeed callSeed₁ callSeed₂ : Nat) :
    sessionEmojiOf (loadModule emojiList defSeed) none callSeed₁
      = sessionEmojiOf (loadModule emojiList defSeed) none callSeed₂ ∧
    sessionEmojiOf (loadModule emojiList defSeed) none callSeed₁
      = npRandomChoice defSeed emojiList :=
  ⟨rfl, rfl⟩

/-- Claim C10 (confirmed): normalization is deterministic — the same raw
response always yields the same normalized reply — and idempotent: the
strip-or-sentinel cleaning is a fixed point on its own output, and feeding
an already-normalized reply back through line 123 returns it unchanged. -/
theorem C10_normalize_idempotent_deterministic :
    (∀ r : FetchResult, normalizeReply r = normalizeReply r) ∧
    (∀ s : String, stripOrSentinel (stripOrSentinel s) = stripOrSentinel s) ∧
    (∀ (v : Json) (c : String), cleanReplyVal v = .ok c →
      cleanReplyVal (.str c) = .ok c) := by
  refine ⟨fun r => rfl, stripOrSentinel_idem, fun v c h => ?_⟩
  obtain ⟨hne, hstr⟩ := cleanReplyVal_ok_props v c h
  simp [cleanReplyVal, pyTruthy, hne, stripOrSentinel, hstr]

/-- Claim C10, witness: re-normalizing the normalization of `" hi "`. -/
theorem C10_witness :
    cleanReplyVal (.str " hi ") = .ok "hi" ∧
    cleanReplyVal (.str "hi") = .ok "hi" :=
  ⟨by rfl,
    C10_normalize_idempotent_deterministic.2.2 (.str " hi ") "hi" (by rfl)⟩

theorem countP_ite (p : Event → Bool) (c : Prop) [Decidable c]
    (l₁ l₂ : List Event) :
    List.countP p (if c then l₁ else l₂)
      = if c then List.countP p l₁ else List.countP p l₂ := by
  split <;> rfl

/-- Claim C3 (confirmed): on every turn, any `backend-synth-complete` send
happens only once all tasks registered in the TTS group have settled and
never after the finalize call; tasks never settle after finalize; and the
finalize collaborator is invoked exactly once on a turn that completes
normally and never on a turn that exits with an error or cancellation —
in particular never twice, and never before the barrier step. -/
theorem C3_synth_barrier_finalize_order (env : Env) :
    c3check env.renderer.tasks (runTurn env).2 = true ∧
    List.countP isFinalize (runTurn env).2
      = (if (runTurn env).1.isOk then 1 else 0) := by
  obtain ⟨asr, fetch, ⟨rr, rres, rtasks⟩, hu, md, so, fo, syo, eo⟩ := env
  cases asr with
  | cancelled =>
    simp [runTurn, c3check, c3go, List.countP_cons, isFinalize, RunResult.isOk]
  | err e =>
    simp [runTurn, c3check, c3go, List.countP_cons, isFinalize, RunResult.isOk]
  | ok t =>
    cases fetch with
    | cancelled =>
      by_cases hh : hu && !skipHistory md <;>
        simp [runTurn, hh, c3check, c3go, List.countP_append, List.countP_cons,
          isFinalize, RunResult.isOk]
    | done r =>
      cases h : normalizeReply r with
      | error e =>
        by_cases hh : hu && !skipHistory md <;>
          simp [runTurn, h, hh, c3check, c3go, List.countP_append,
            List.countP_cons, isFinalize, RunResult.isOk]
      | ok c =>
        cases rr <;> cases hu <;> cases hsk : skipHistory md <;>
          by_cases ht : rtasks = 0 <;>
          by_cases hc : c = "" <;>
          by_cases hr : rres.getD "" = "" <;>
          simp [runTurn, h, hsk, ht, hc, hr, c3check, c3go, afterNormalize,
            barrierTrace, c3go_replicate, countP_replicate_eq,
            List.countP_append, List.countP_cons, isFinalize, RunResult.isOk]

/-- Claim C9 (confirmed): when no background TTS task was registered
(`tts_manager.task_list` empty), the barrier block is skipped entirely —
no task settles and no `backend-synth-complete` event is sent. -/
theorem C9_empty_task_group_noop (env : Env) :
    List.countP isSynthSend
        (runTurn { env with renderer := { env.renderer with tasks := 0 } }).2
      = 0 ∧
    List.countP isSettle
        (runTurn { env with renderer := { env.renderer with tasks := 0 } }).2
      = 0 := by
  obtain ⟨asr, fetch, ⟨rr, rres, rtasks⟩, hu, md, so, fo, syo, eo⟩ := env
  cases asr with
  | cancelled => simp [runTurn, List.countP_cons, isSynthSend, isSettle]
  | err e => simp [runTurn, List.countP_cons, isSynthSend, isSettle]
  | ok t =>
    cases fetch with
    | cancelled =>
      by_cases hh : hu && !skipHistory md <;>
        simp [runTurn, hh, List.countP_append, List.countP_cons, isSynthSend,
          isSettle]
    | done r =>
      cases h : normalizeReply r with
      | error e =>
        by_cases hh : hu && !skipHistory md <;>
          simp [runTurn, h, hh, List.countP_append, List.countP_cons,
            isSynthSend, isSettle]
      | ok c =>
        cases rr <;>
          by_cases hh : hu && !skipHistory md <;>
          simp [runTurn, h, hh, afterNormalize, barrierTrace, countP_ite,
            List.countP_append, List.countP_cons, isSynthSend, isSettle]

/-- Replace the ASR outcome of an environment. -/
def setAsr (env : Env) (a : AsrOutcome) : Env := { env with asr := a }

/-- Replace the fetch outcome of an environment. -/
def setFetch (env : Env) (f : FetchOutcome) : Env := { env with fetch := f }

/-- Replace the renderer behaviour of an environment. -/
def setRenderer (env : Env) (rb : RendererBehavior) : Env :=
  { env with renderer := rb }

/-- An environment whose renderer raises, with ASR text `t` and fetch
outcome `r`; the renderer still registered its TTS tasks before raising. -/
def withRaisingRenderer (env : Env) (t : String) (r : FetchResult) : Env :=
  { env with
      asr := .ok t
      fetch := .done r
      renderer := { env.renderer with raises := true } }

/-- A fixed sample environment for the witnesses. -/
def sampleEnv : Env :=
  ⟨.ok "hello", .done (.exn "net"), ⟨false, some "part", 1⟩, true, none,
    true, true, true, true⟩

/-- Claim C4 (confirmed): exit contract of `process_single_conversation` —
cancellation at the ASR or fetch await is re-raised as cancellation, not a
generic error; a fatal ASR error is re-raised unchanged after a best-effort
UI error event; on success the call returns the accumulated response text;
an unhandled normalization error is re-raised after a best-effort UI error
event; and the cleanup step runs exactly once on every exit path. -/
theorem C4_exit_contract (env : Env) (t e s : String) (r₁ r₂ : FetchResult)
    (n : Nat)
    (h₁ : exceptOk (normalizeReply r₁) = true)
    (h₂ : exceptOk (normalizeReply r₂) = false) :
    (runTurn (setAsr env .cancelled)).1 = .cancelled ∧
    (runTurn (setFetch (setAsr env (.ok t)) .cancelled)).1 = .cancelled ∧
    (runTurn (setAsr env (.err e))).1 = .error e ∧
    (runTurn (setAsr env (.err e))).2.any isErrorSend = true ∧
    (runTurn (setRenderer (setFetch (setAsr env (.ok t)) (.done r₁))
        ⟨false, some s, n⟩)).1 = .ok s ∧
    (∃ m, normalizeReply r₂ = .error m ∧
      (runTurn (setFetch (setAsr env (.ok t)) (.done r₂))).1 = .error m ∧
      (runTurn (setFetch (setAsr env (.ok t)) (.done r₂))).2.any isErrorSend
        = true) ∧
    List.countP isCleanup (runTurn env).2 = 1 := by
  obtain ⟨asr, fetch, ⟨rr, rres, rtasks⟩, hu, md, so, fo, syo, eo⟩ := env
  refine ⟨by simp [runTurn, setAsr], by simp [runTurn, setAsr, setFetch],
    by simp [runTurn, setAsr], by simp [runTurn, setAsr, isErrorSend],
    ?_, ?_, ?_⟩
  · cases hn : normalizeReply r₁ with
    | error m => rw [hn] at h₁; simp [exceptOk] at h₁
    | ok c =>
      simp [runTurn, setAsr, setFetch, setRenderer, hn, afterNormalize]
  · cases hn : normalizeReply r₂ with
    | ok c => rw [hn] at h₂; simp [exceptOk] at h₂
    | error m =>
      refine ⟨m, rfl, by simp [runTurn, setAsr, setFetch, hn], ?_⟩
      by_cases hh : hu && !skipHistory md <;>
        simp [runTurn, setAsr, setFetch, hn, hh, isErrorSend]
  · cases asr with
    | cancelled => simp [runTurn, List.countP_cons, isCleanup]
    | err e' => simp [runTurn, List.countP_cons, isCleanup]
    | ok t' =>
      cases fetch with
      | cancelled =>
        by_cases hh : hu && !skipHistory md <;>
          simp [runTurn, hh, List.countP_append, List.countP_cons, isCleanup]
      | done r =>
        cases h : normalizeReply r with
        | error e' =>
          by_cases hh : hu && !skipHistory md <;>
            simp [runTurn, h, hh, List.countP_append, List.countP_cons,
              isCleanup]
        | ok c =>
          cases rr <;> cases hu <;> cases hsk : skipHistory md <;>
            by_cases ht : rtasks = 0 <;>
            by_cases hc : c = "" <;>
            by_cases hr : rres.getD "" = "" <;>
            simp [runTurn, h, hsk, ht, hc, hr, afterNormalize, barrierTrace,
              countP_replicate_eq, List.countP_append, List.countP_cons,
              isCleanup]

/-- Claim C4, witness: the exit contract at a concrete environment, with
`r₁` a normalizable outcome and `r₂` the 200 response whose `reply` field
is the non-string `1`. -/
theorem C4_witness :
    exceptOk (normalizeReply (.exn "boom")) = true ∧
    exceptOk (normalizeReply (FetchResult.response 200
        ⟨"b", some (.obj [("reply", Json.num 1)])⟩)) = false ∧
    (runTurn (setAsr sampleEnv .cancelled)).1 = .cancelled :=
  ⟨by rfl, by rfl,
    (C4_exit_contract sampleEnv "t" "e" "s" (.exn "boom")
      (FetchResult.response 200 ⟨"b", some (.obj [("reply", Json.num 1)])⟩)
      0 (by rfl) (by rfl)).1⟩

/-- Claim C5 (confirmed): if the Output Renderer raises, the turn does not
abort — the call still returns the normalized display text (which is
non-empty) as its response, and a raw-text fallback event is pushed to the
UI transport strictly before any finalize event; the push's transport flag
is universally quantified, so a failing push is swallowed without changing
the outcome. -/
theorem C5_renderer_failure_degrades (env : Env) (t c : String)
    (r : FetchResult) (h : normalizeReply r = .ok c) :
    (runTurn (withRaisingRenderer env t r)).1 = .ok c ∧
    c ≠ "" ∧
    textSendBeforeFinalize (runTurn (withRaisingRenderer env t r)).2 = true := by
  obtain ⟨asr, fetch, ⟨rr, rres, rtasks⟩, hu, md, so, fo, syo, eo⟩ := env
  refine ⟨?_, (cleanReplyVal_ok_props (replyText r) c h).1, ?_⟩
  · simp [runTurn, withRaisingRenderer, h, afterNormalize]
  · by_cases hh : hu && !skipHistory md <;>
      simp [runTurn, withRaisingRenderer, h, hh, afterNormalize,
        textSendBeforeFinalize]

/-- Claim C5, witness: the degraded turn at a concrete environment whose
fetch failed with a network error. -/
theorem C5_witness :
    normalizeReply (.exn "net") = .ok "[Gagal konek ke n8n: net]" ∧
    (runTurn (withRaisingRenderer sampleEnv "hi" (.exn "net"))).1
      = .ok "[Gagal konek ke n8n: net]" :=
  ⟨by rfl,
    (C5_renderer_failure_degrades sampleEnv "hi"
      "[Gagal konek ke n8n: net]" (.exn "net") (by rfl)).1⟩

/-- Metadata carrying `skip_history: true` (plus arbitrary other keys). -/
def withSkipTrue (env : Env) (rest : List (String × Json)) : Env :=
  { env with metadata := some (("skip_history", Json.bool true) :: rest) }

/-- The same environment with no metadata at all. -/
def withNoMetadata (env : Env) : Env := { env with metadata := none }

theorem skipHistory_skipTrue (rest : List (String × Json)) :
    skipHistory (some (("skip_history", Json.bool true) :: rest)) = true := by
  simp [skipHistory, List.lookup, pyTruthy]

theorem isHumanWrite_ai (c : String) :
    isHumanWrite (.historyWrite "ai" c) = false := rfl

theorem isHumanWrite_human (c : String) :
    isHumanWrite (.historyWrite "human" c) = true := rfl

theorem isAiWrite_human (c : String) :
    isAiWrite (.historyWrite "human" c) = false := rfl

theorem isAiWrite_ai (c : String) :
    isAiWrite (.historyWrite "ai" c) = true := rfl

theorem filter_replicate_settle (n : Nat) :
    List.filter (fun ev => !isHumanWrite ev) (List.replicate n Event.taskSettled)
      = List.replicate n Event.taskSettled := by
  induction n with
  | zero => rfl
  | succ n ih => simp [List.replicate_succ, List.filter_cons, isHumanWrite, ih]

/-- Claim C7 (confirmed): with `skip_history=true` in metadata, no history
write with role `human` occurs, while everything else is unchanged — the
turn's result equals that of the same turn without metadata, the trace is
exactly the no-metadata trace with the `human` write removed, and an `ai`
history entry is still written precisely when a history sink is configured
and the accumulated response is non-empty. -/
theorem C7_skip_history_frame (env : Env) (rest : List (String × Json)) :
    List.countP isHumanWrite (runTurn (withSkipTrue env rest)).2 = 0 ∧
    (runTurn (withSkipTrue env rest)).1 = (runTurn (withNoMetadata env)).1 ∧
    (runTurn (withSkipTrue env rest)).2
      = List.filter (fun ev => !isHumanWrite ev)
          (runTurn (withNoMetadata env)).2 ∧
    List.countP isAiWrite (runTurn (withSkipTrue env rest)).2
      = (if env.historyUid && okNonempty (runTurn (withSkipTrue env rest)).1
          then 1 else 0) := by
  obtain ⟨asr, fetch, ⟨rr, rres, rtasks⟩, hu, md, so, fo, syo, eo⟩ := env
  cases asr with
  | cancelled =>
    simp [runTurn, withSkipTrue, withNoMetadata, List.countP_cons,
      List.filter_cons, isHumanWrite, isAiWrite, okNonempty]
  | err e =>
    simp [runTurn, withSkipTrue, withNoMetadata, List.countP_cons,
      List.filter_cons, isHumanWrite, isAiWrite, okNonempty]
  | ok t =>
    cases fetch with
    | cancelled =>
      cases hu <;>
        simp [runTurn, withSkipTrue, withNoMetadata, skipHistory_skipTrue,
          skipHistory, pyTruthy, List.countP_append, List.countP_cons,
          List.filter_append, List.filter_cons, isHumanWrite_human,
          isHumanWrite, isAiWrite, okNonempty]
    | done r =>
      cases h : normalizeReply r with
      | error e =>
        cases hu <;>
          simp [runTurn, withSkipTrue, withNoMetadata, skipHistory_skipTrue,
            skipHistory, pyTruthy, h, List.countP_append, List.countP_cons,
            List.filter_append, List.filter_cons, isHumanWrite_human,
            isHumanWrite, isAiWrite, okNonempty]
      | ok c =>
        cases rr <;> cases hu <;>
          by_cases ht : rtasks = 0 <;>
          by_cases hc : c = "" <;>
          by_cases hr : rres.getD "" = "" <;>
          simp [runTurn, withSkipTrue, withNoMetadata, skipHistory_skipTrue,
            skipHistory, pyTruthy, h, ht, hc, hr, afterNormalize, barrierTrace,
            countP_replicate_eq, filter_replicate_settle, List.countP_append,
            List.countP_cons, List.filter_append, List.filter_cons,
            isHumanWrite_human, isHumanWrite_ai, isHumanWrite, isAiWrite_ai,
            isAiWrite_human, isAiWrite, okNonempty]

end SingleConversation
